import Mathlib

/-!
Shallow embedding of the climatecontroller repository (garlic-curing box
temperature controller): the thermostat/fan state machine of
`src/heater.py`, the runtime accumulation of `src/db_access.py`, the
startup sanity check of `src/measure.py`, and the supervisor loop of
`main.py`.

Modelling conventions:
* temperatures are integers in tenths of a degree Celsius — the probes
  report `round(x, 1)` values, so one decimal is exact, and the
  thresholds 67.5 °C / 72.5 °C are the integers 675 / 725;
* instants and durations are natural numbers of microseconds, matching
  Python `datetime`/`timedelta` resolution; `timedelta.seconds` (the
  sub-day whole-seconds component of a non-negative delta) is `tdSeconds`;
* the GPIO relay levels (heater pin 13, fans pin 11) and the module
  globals `heater_ts` and `start_time`, together with the persisted
  `heater_time` row of the `global_state` table, form an explicit state
  record threaded through the functions;
* printing is dropped except for observable decision outputs: the
  divergence warning of `check_heating` and the duty-cycle percentage of
  `write_heating_time` are returned as data.
-/

/-- `MIN_TEMP` from `src/heater.py` (67.5 °C), in tenths of a degree:
minimum temperature for any probe. -/
def MIN_TEMP : ℤ := 675

/-- `MAX_TEMP` from `src/heater.py` (72.5 °C), in tenths of a degree:
maximum temperature for any probe. -/
def MAX_TEMP : ℤ := 725

/-- Python `min` over a non-empty list of temperatures
(the `[]` case is junk; `min(())` raises in Python). -/
def listMin : List ℤ → ℤ
  | [] => 0
  | x :: xs => xs.foldl min x

/-- Python `max` over a non-empty list of temperatures. -/
def listMax : List ℤ → ℤ
  | [] => 0
  | x :: xs => xs.foldl max x

/-- Python `timedelta.seconds` of a non-negative delta given in
microseconds: whole seconds, modulo one day (86400 s). -/
def tdSeconds (us : ℕ) : ℕ := us / 1000000 % 86400

/-- The state touched by `write_heating_time` in `src/db_access.py`:
the persisted `heater_time` integer of the `global_state` table, and the
process-local module global `start_time` (microseconds since epoch). -/
structure DbState where
  heating_timer : ℕ
  start_time : ℕ
deriving DecidableEq, Repr

/-- `write_heating_time(time_on)` from `src/db_access.py`, at instant
`now` (the `dt.datetime.now()` the body reads). `time_on_us` is the
`timedelta` argument in microseconds. Returns the new db/global state and
the reported duty-cycle percentage (`none` on the sentinel branch, which
reports none). When the persisted total is the sentinel 0, the duration
is dropped, `start_time` is reset to `now` and the dummy value 1 is
persisted; otherwise `time_on.seconds` is added to the total and
`new_total / int(run_time.total_seconds()) * 100` is reported. -/
def write_heating_time (time_on_us : ℕ) (now : ℕ) (db : DbState) :
    DbState × Option ℚ :=
  if db.heating_timer = 0 then
    (⟨1, now⟩, none)
  else
    let new_total := tdSeconds time_on_us + db.heating_timer
    let run_time_sec := (now - db.start_time) / 1000000
    (⟨new_total, db.start_time⟩,
      some ((new_total : ℚ) / (run_time_sec : ℚ) * 100))

/-- The state touched by `src/heater.py`: the two relay output levels
(GPIO readback is authoritative, so a `Bool` each), the module global
`heater_ts` (microseconds since epoch), and the db/global state reached
through `write_heating_time`. -/
structure HState where
  heater : Bool
  fans : Bool
  heater_ts : ℕ
  db : DbState
deriving DecidableEq, Repr

/-- `_toggle_heating(turn_on)` from `src/heater.py` at instant `now`:
no-op if the requested level equals the heater pin readback; otherwise
switch the pin, forward `now - heater_ts` to `write_heating_time` on
turn-off, and set `heater_ts = now`. -/
def toggle_heating (turn_on : Bool) (now : ℕ) (s : HState) : HState :=
  if turn_on = s.heater then s
  else if turn_on then
    { s with heater := true, heater_ts := now }
  else
    { s with heater := false, heater_ts := now,
             db := (write_heating_time (now - s.heater_ts) now s.db).1 }

/-- `_activate_fans(turn_on)` from `src/heater.py`: set the fans pin. -/
def activate_fans (turn_on : Bool) (s : HState) : HState :=
  { s with fans := turn_on }

/-- `_toggle_fans()` from `src/heater.py` at instant `now`: fans follow
the heater; once the heater is off, fans are switched off when
`(now - heater_ts).seconds > 59`. -/
def toggle_fans (now : ℕ) (s : HState) : HState :=
  if s.heater && s.fans then s
  else if s.heater && !s.fans then activate_fans true s
  else
    let fan_run_time := tdSeconds (now - s.heater_ts)
    if !s.heater && s.fans && decide (fan_run_time > 59) then
      activate_fans false s
    else s

/-- Result of one `check_heating()` tick: the new state and the
divergence warning `(lo, hi)` when the warning branch printed. -/
structure TickResult where
  state : HState
  divergence : Option (ℤ × ℤ)
deriving DecidableEq, Repr

/-- `check_heating()` from `src/heater.py` on the probe temperatures
`temps` (non-empty in any real tick; `zip(*[])` raises) at instant `now`:
if `min(temps) < MIN_TEMP and max(temps) > MAX_TEMP`, warn with the pair,
force the heater off and the fans on, and return; otherwise pick
`max(temps)` while heating else `min(temps)`, request heating exactly
when `temp <= (MAX_TEMP if heating else MIN_TEMP)`, then `_toggle_fans`. -/
def check_heating (temps : List ℤ) (now : ℕ) (s : HState) : TickResult :=
  let lo := listMin temps
  let hi := listMax temps
  if lo < MIN_TEMP ∧ MAX_TEMP < hi then
    ⟨activate_fans true (toggle_heating false now s), some (lo, hi)⟩
  else
    let temp := if s.heater then hi else lo
    let s1 := toggle_heating
      (decide (temp ≤ if s.heater then MAX_TEMP else MIN_TEMP)) now s
    ⟨toggle_fans now s1, none⟩

/-- `shutdown()` from `src/heater.py` at instant `now`: nothing when the
heater pin is low; otherwise turn the heater off (forwarding the final
duration), force the fans on, and sleep 30 s. The second component is the
seconds slept for the cooldown. -/
def shutdown (now : ℕ) (s : HState) : HState × ℕ :=
  if !s.heater then (s, 0)
  else
    (activate_fans true (toggle_heating false now s), 30)

/-- Why `run_main` in `main.py` stopped looping. -/
inductive ExitCause where
  | interrupted
  | fatalFault
deriving DecidableEq, Repr

/-- The `finally` block of `main.py`: `shutdown()` runs on every exit
path — `KeyboardInterrupt` and any propagated fault alike — before
`GPIO.cleanup()`. -/
def program_exit (_c : ExitCause) (now : ℕ) (s : HState) : HState × ℕ :=
  shutdown now s

/-- One tick's sensor outcome in the main loop: a successful probe read,
or a read that raises (`w1thermsensor` faults propagate uncaught). -/
inductive TickInput where
  | ok (temps : List ℤ)
  | readFail
deriving DecidableEq, Repr

/-- Whether the embedded main loop is still iterating or has unwound
with a propagated fault. -/
inductive LoopExit where
  | running
  | fatal
deriving DecidableEq, Repr

/-- The `while True` loop of `run_main` in `main.py`, driven by a finite
schedule of `(now, tick input)` pairs: each tick calls `check_heating`;
there is no exception handling in the loop, so the first failing read
propagates and ends the loop immediately. (The every-4th-tick
`measure_all` only appends sensor log rows and is not modelled.) -/
def run_loop : List (ℕ × TickInput) → HState → HState × LoopExit
  | [], s => (s, .running)
  | (_, .readFail) :: _, s => (s, .fatal)
  | (now, .ok temps) :: rest, s =>
      run_loop rest (check_heating temps now s).state

/-- Modelled from the spec: `src/DHT20.py` is absent from the sources.
The spec's sensor capability says the humidity read returns a
`(temperature, relative_humidity)` pair, so `get_temp_and_humid()`
yields a 2-tuple, whose Python `len` is 2. -/
def humidity_reading_len (_r : ℤ × ℤ) : ℕ := 2

/-- `sanity_check()` from `src/measure.py`, with the sensor reads passed
in: start from `sane = True`, clear it when `len(get_temps()) != 2`,
clear it when the length of the humidity reading is not 2. -/
def sanity_check (temps : List (String × ℤ)) (humid : ℤ × ℤ) : Bool :=
  let sane := true
  let sane := if ¬ temps.length = 2 then false else sane
  let sane := if ¬ humidity_reading_len humid = 2 then false else sane
  sane

/-- Concrete state with the heater relay on (fans on, `heater_ts = 0`,
5 s already persisted), used to instantiate theorems. -/
def sOn : HState := ⟨true, true, 0, ⟨5, 0⟩⟩

/-- Concrete state with heater and fans both off. -/
def sOff : HState := ⟨false, false, 0, ⟨5, 0⟩⟩

/-- Concrete state with the heater off and the fans still on
(inside or at the end of the grace period, `heater_ts = 0`). -/
def sFanOn : HState := ⟨false, true, 0, ⟨5, 0⟩⟩

/-- Concrete state with the heater on and the fans not yet on. -/
def sHeatOn : HState := ⟨true, false, 0, ⟨5, 0⟩⟩

/-- Concrete db/global state of a process that restarts after a previous
run already persisted 3912 s of heating: the `heater_time` row survives
the restart, only `start_time` is fresh. -/
def dbRestarted : DbState := ⟨3912, 0⟩

/-- The heater pin level after `_toggle_heating(turn_on)` is exactly the
requested level. -/
lemma toggle_heating_heater (b : Bool) (now : ℕ) (s : HState) :
    (toggle_heating b now s).heater = b := by
  cases b <;> cases hs : s.heater <;> simp [toggle_heating, hs]

/-- `_toggle_fans` never touches the heater pin. -/
lemma toggle_fans_heater (now : ℕ) (s : HState) :
    (toggle_fans now s).heater = s.heater := by
  simp only [toggle_fans, activate_fans]
  split_ifs <;> rfl

/-- On a non-divergent tick, the heater pin after `check_heating` is
`max(temps) <= MAX_TEMP` while heating, else `min(temps) <= MIN_TEMP`. -/
lemma check_heating_heater (temps : List ℤ) (now : ℕ) (s : HState)
    (hnd : ¬ (listMin temps < MIN_TEMP ∧ MAX_TEMP < listMax temps)) :
    (check_heating temps now s).state.heater =
      if s.heater then decide (listMax temps ≤ MAX_TEMP)
      else decide (listMin temps ≤ MIN_TEMP) := by
  simp only [check_heating]
  rw [if_neg hnd]
  show (toggle_fans now (toggle_heating _ now s)).heater = _
  rw [toggle_fans_heater, toggle_heating_heater]
  cases hs : s.heater <;> simp [hs]

/-- C1 counterexample. The claim says that while heating the next state
is OFF exactly when `hi >= max_temp`. At the boundary `hi = 72.5 °C`
(725 tenths) on a non-divergent tick with the heater ON, the code keeps
the heater ON: line 111 of `src/heater.py` requests heating when
`temp <= MAX_TEMP`, so it turns off only for `hi > MAX_TEMP`, strictly. -/
theorem check_heating_at_max_temp_stays_on :
    ¬ (listMin [725] < MIN_TEMP ∧ MAX_TEMP < listMax [725]) ∧
    MAX_TEMP ≤ listMax [725] ∧
    sOn.heater = true ∧
    (check_heating [725] 1000000 sOn).state.heater = true := by
  decide

/-- C1 (amended): on a non-divergent tick with a non-empty reading list,
if the heater is ON the next state is OFF exactly when
`hi = max(temperatures)` satisfies `hi > max_temp` (strictly; at
`hi = max_temp` it stays ON), and if the heater is OFF the next state is
ON exactly when `lo = min(temperatures)` satisfies `lo <= min_temp`. -/
theorem check_heating_hysteresis (t : ℤ) (ts : List ℤ) (s : HState)
    (now : ℕ)
    (hnd : ¬ (listMin (t :: ts) < MIN_TEMP ∧ MAX_TEMP < listMax (t :: ts))) :
    (s.heater = true →
      ((check_heating (t :: ts) now s).state.heater = false ↔
        MAX_TEMP < listMax (t :: ts))) ∧
    (s.heater = false →
      ((check_heating (t :: ts) now s).state.heater = true ↔
        listMin (t :: ts) ≤ MIN_TEMP)) := by
  rw [check_heating_heater (t :: ts) now s hnd]
  constructor <;> intro h <;>
    simp [h, decide_eq_false_iff_not, decide_eq_true_eq, not_le]

/-- C1 witness: with the heater ON and the single reading 73.0 °C
(above `MAX_TEMP`), the amended hysteresis rule turns the heater off. -/
theorem check_heating_hysteresis_witness :
    ¬ (listMin [730] < MIN_TEMP ∧ MAX_TEMP < listMax [730]) ∧
    ((check_heating [730] 2000000 sOn).state.heater = false ↔
      MAX_TEMP < listMax [730]) :=
  ⟨by decide,
    (check_heating_hysteresis 730 [] sOn 2000000 (by decide)).1 rfl⟩

/-- C2: whenever `lo < min_temp` and `hi > max_temp` hold simultaneously
on a non-empty reading list, `check_heating` forces the heater OFF and
the fans ON regardless of the prior state, returns the divergence
warning carrying `(lo, hi)`, and skips the hysteresis step and the fan
grace-period logic (the early `return` on line 108 of `src/heater.py`). -/
theorem check_heating_divergence_override (t : ℤ) (ts : List ℤ)
    (s : HState) (now : ℕ)
    (hlo : listMin (t :: ts) < MIN_TEMP)
    (hhi : MAX_TEMP < listMax (t :: ts)) :
    (check_heating (t :: ts) now s).state.heater = false ∧
    (check_heating (t :: ts) now s).state.fans = true ∧
    (check_heating (t :: ts) now s).divergence =
      some (listMin (t :: ts), listMax (t :: ts)) := by
  simp only [check_heating]
  rw [if_pos ⟨hlo, hhi⟩]
  exact ⟨by simp [activate_fans, toggle_heating_heater], rfl, rfl⟩

/-- C2 witness: readings 60.0 °C and 80.0 °C straddle both thresholds;
from a state with the heater ON and the fans OFF, the override yields
heater OFF, fans ON, and the warning `(600, 800)`. -/
theorem check_heating_divergence_override_witness :
    listMin [600, 800] < MIN_TEMP ∧ MAX_TEMP < listMax [600, 800] ∧
    (check_heating [600, 800] 3000000 sHeatOn).state.heater = false ∧
    (check_heating [600, 800] 3000000 sHeatOn).state.fans = true ∧
    (check_heating [600, 800] 3000000 sHeatOn).divergence =
      some (listMin [600, 800], listMax [600, 800]) :=
  ⟨by decide, by decide,
    check_heating_divergence_override 600 [800] sHeatOn 3000000
      (by decide) (by decide)⟩

/-- C3 counterexample. The claim says fans are turned off exactly when
`elapsed = now - heater_ts` exceeds 60 s. With the heater off, the fans
on, and `elapsed` exactly 60 s (60000000 us), line 77 of `src/heater.py`
(`fan_run_time > 59` on `timedelta.seconds`) already turns the fans off,
although `elapsed > 60 s` is false. -/
theorem toggle_fans_at_sixty_seconds :
    sFanOn.heater = false ∧ sFanOn.fans = true ∧
    (toggle_fans 60000000 sFanOn).fans = false ∧
    ¬ (60000000 - sFanOn.heater_ts > 60 * 1000000) := by
  decide

/-- C3 (amended): if the heater is ON the fans end up ON; if the heater
is OFF and the fans are ON, the fans are turned OFF exactly when the
whole-seconds (sub-day) component of `now - heater_ts` exceeds 59 — that
is, at 60 s elapsed, not strictly after 60 s; if the fans are already
OFF (heater OFF) they stay OFF. -/
theorem toggle_fans_grace (s : HState) (now : ℕ) :
    (s.heater = true → (toggle_fans now s).fans = true) ∧
    (s.heater = false → s.fans = true →
      ((toggle_fans now s).fans = false ↔
        59 < tdSeconds (now - s.heater_ts))) ∧
    (s.heater = false → s.fans = false →
      (toggle_fans now s).fans = false) := by
  refine ⟨fun hh => ?_, fun hh hf => ?_, fun hh hf => ?_⟩
  · cases hf : s.fans <;> simp [toggle_fans, activate_fans, hh, hf]
  · by_cases hrun : 59 < tdSeconds (now - s.heater_ts) <;>
      simp [toggle_fans, activate_fans, hh, hf, hrun]
  · simp [toggle_fans, activate_fans, hh, hf]

/-- C3 witness: at 61 s elapsed the grace period is over and the fans
are switched off; with the heater on and the fans off they switch on. -/
theorem toggle_fans_grace_witness :
    (toggle_fans 61000000 sFanOn).fans = false ∧
    (toggle_fans 0 sHeatOn).fans = true :=
  ⟨((toggle_fans_grace sFanOn 61000000).2.1 rfl rfl).mpr (by decide),
    (toggle_fans_grace sHeatOn 0).1 rfl⟩

/-- C4 counterexample. The claim says a single read failure is absorbed:
the tick is skipped and the loop continues, escalating only after three
consecutive failures. In `run_main` (`main.py`) there is no exception
handling around `check_heating`, so the very first failing read unwinds
the loop: with a schedule of one failing tick followed by one good tick,
the loop exits fatally at the first tick instead of continuing. -/
theorem run_loop_single_failure_fatal :
    run_loop [(0, TickInput.readFail), (15000000, TickInput.ok [700])] sOff
      = (sOff, LoopExit.fatal) ∧
    LoopExit.fatal ≠ LoopExit.running := by
  exact ⟨rfl, by decide⟩

/-- C4 (amended): a sensor read failure on any tick is not absorbed: the
first failing read ends the main loop immediately with a fatal exit
(the exception propagates out of `run_main`; the `finally` block of
`main.py` then runs the shutdown sequence), with no warn-and-continue
and no three-consecutive-failures escalation. -/
theorem run_loop_read_failure_exits (now : ℕ)
    (rest : List (ℕ × TickInput)) (s : HState) :
    run_loop ((now, TickInput.readFail) :: rest) s = (s, LoopExit.fatal) :=
  rfl

/-- C5 counterexample. The claim says the first `write_heating_time`
call after *any* process start leaves the persisted total unincreased.
But the sentinel test on line 157 of `src/db_access.py` checks the
*persisted* total, which survives restarts: after a previous run
persisted 3912 s, the first call of the restarted process (duration
100 s) raises the persisted total to 4012 — it increases. -/
theorem write_heating_time_after_restart_adds :
    dbRestarted.heating_timer ≠ 0 ∧
    (write_heating_time 100000000 10000000000 dbRestarted).1.heating_timer
      = 4012 ∧
    (3912 : ℕ) < 4012 := by
  refine ⟨by decide, rfl, by decide⟩

/-- C5 (amended): for a `write_heating_time` call that finds the
persisted cumulative total equal to the uninitialized sentinel 0 — the
first call ever against a fresh (or manually cleared) store, not the
first call after every restart — the duration is not added: the local
baseline `start_time` is reset to `now` and the sentinel value 1 second
is persisted, with no duty-cycle report. -/
theorem write_heating_time_sentinel (d now : ℕ) (db : DbState)
    (h : db.heating_timer = 0) :
    write_heating_time d now db = (⟨1, now⟩, none) := by
  simp [write_heating_time, h]

/-- C5 witness: on a fresh store (total 0), a 5 s duration at `now = 42`
is dropped, the baseline moves to 42 and the sentinel 1 is persisted. -/
theorem write_heating_time_sentinel_witness :
    (⟨0, 7⟩ : DbState).heating_timer = 0 ∧
    write_heating_time 5000000 42 ⟨0, 7⟩ = (⟨1, 42⟩, none) :=
  ⟨rfl, write_heating_time_sentinel 5000000 42 ⟨0, 7⟩ rfl⟩

/-- C6 counterexample. The claim says the new persisted total equals the
old total plus the duration in seconds. For a duration of one day plus
100 s (86500 s) over the total 3912, line 169 of `src/db_access.py` adds
`time_on.seconds` — the sub-day component 100 — giving 4012, not
3912 + 86500 = 90412. -/
theorem write_heating_time_day_wrap :
    dbRestarted.heating_timer = 3912 ∧
    (write_heating_time 86500000000 20000000000 dbRestarted).1.heating_timer
      = 4012 ∧
    (4012 : ℕ) ≠ 3912 + 86500 := by
  refine ⟨rfl, rfl, by decide⟩

/-- C6 (amended): for every `write_heating_time` call with a nonzero
persisted total (and a positive whole-second runtime, else Python would
divide by zero), the new persisted total is the old total plus the
*sub-day whole-seconds component* of the duration (`time_on.seconds`),
and the reported duty-cycle percentage is the new total divided by the
whole-second-truncated elapsed time since the baseline, times 100. -/
theorem write_heating_time_accumulate (d now : ℕ) (db : DbState)
    (h : db.heating_timer ≠ 0)
    (_hrun : 0 < (now - db.start_time) / 1000000) :
    write_heating_time d now db =
      (⟨tdSeconds d + db.heating_timer, db.start_time⟩,
        some (((tdSeconds d + db.heating_timer : ℕ) : ℚ) /
          (((now - db.start_time) / 1000000 : ℕ) : ℚ) * 100)) := by
  simp [write_heating_time, h]

/-- C6 witness: the spec's concrete scenario 4 — total 3812 plus a 100 s
duration gives 3912 s over a 10000 s runtime, and the reported
percentage is 3912 / 10000 × 100 (= 39.12). -/
theorem write_heating_time_accumulate_witness :
    (⟨3812, 0⟩ : DbState).heating_timer ≠ 0 ∧
    0 < (10000000000 - (⟨3812, 0⟩ : DbState).start_time) / 1000000 ∧
    write_heating_time 100000000 10000000000 ⟨3812, 0⟩ =
      (⟨3912, 0⟩, some (((3912 : ℕ) : ℚ) / ((10000 : ℕ) : ℚ) * 100)) :=
  ⟨by decide, by decide,
    write_heating_time_accumulate 100000000 10000000000 ⟨3812, 0⟩
      (by decide) (by decide)⟩

/-- C7: when the heater is ON at shutdown, `shutdown()` forces it OFF —
updating the db/global state exactly as a normal ON→OFF transition does,
by forwarding `now - heater_ts` to `write_heating_time` — forces the
fans ON, and sleeps the fixed 30 s cooldown; and the `finally` block of
`main.py` applies this same sequence on the interrupted and the faulted
exit path alike. -/
theorem shutdown_spec (s : HState) (now : ℕ) (h : s.heater = true) :
    (shutdown now s).1.heater = false ∧
    (shutdown now s).1.fans = true ∧
    (shutdown now s).1.db =
      (write_heating_time (now - s.heater_ts) now s.db).1 ∧
    (shutdown now s).1.heater_ts = now ∧
    (shutdown now s).2 = 30 ∧
    program_exit ExitCause.interrupted now s = shutdown now s ∧
    program_exit ExitCause.fatalFault now s = shutdown now s := by
  simp [shutdown, h, program_exit, activate_fans, toggle_heating]

/-- C7 witness: shutting down `sOn` (heater on since `heater_ts = 0`) at
`now = 7000000` turns the heater off, the fans on, and sleeps 30 s. -/
theorem shutdown_spec_witness :
    sOn.heater = true ∧
    (shutdown 7000000 sOn).1.heater = false ∧
    (shutdown 7000000 sOn).1.fans = true ∧
    (shutdown 7000000 sOn).2 = 30 :=
  ⟨rfl, (shutdown_spec sOn 7000000 rfl).1,
    (shutdown_spec sOn 7000000 rfl).2.1,
    (shutdown_spec sOn 7000000 rfl).2.2.2.2.1⟩

/-- C8: on a non-divergent tick whose non-empty readings lie strictly
inside the hysteresis band, the heater state is unchanged: ON with
`max(temperatures) < max_temp` stays ON, OFF with
`min(temperatures) > min_temp` stays OFF. -/
theorem check_heating_band_holds (t : ℤ) (ts : List ℤ) (s : HState)
    (now : ℕ)
    (hnd : ¬ (listMin (t :: ts) < MIN_TEMP ∧ MAX_TEMP < listMax (t :: ts))) :
    (s.heater = true → listMax (t :: ts) < MAX_TEMP →
      (check_heating (t :: ts) now s).state.heater = true) ∧
    (s.heater = false → MIN_TEMP < listMin (t :: ts) →
      (check_heating (t :: ts) now s).state.heater = false) := by
  rw [check_heating_heater (t :: ts) now s hnd]
  constructor <;> intro h hband <;>
    simp [h, decide_eq_true_eq, decide_eq_false_iff_not, not_le]
  · exact le_of_lt hband
  · exact hband

/-- C8 witness: the in-band reading 70.0 °C keeps the heater ON from
`sOn` and keeps it OFF from `sOff`. -/
theorem check_heating_band_holds_witness :
    ¬ (listMin [700] < MIN_TEMP ∧ MAX_TEMP < listMax [700]) ∧
    (check_heating [700] 4000000 sOn).state.heater = true ∧
    (check_heating [700] 4000000 sOff).state.heater = false :=
  ⟨by decide,
    (check_heating_band_holds 700 [] sOn 4000000 (by decide)).1 rfl
      (by decide),
    (check_heating_band_holds 700 [] sOff 4000000 (by decide)).2 rfl
      (by decide)⟩

/-- C9: `sanity_check` returns `True` exactly when the temperature read
yields exactly two probe readings — in particular it returns `False`
when more than two probes respond — and its humidity branch compares the
length of the returned `(temperature, humidity)` pair against 2, which
always holds, so a humidity dropout that still returns a pair is
undetectable. -/
theorem sanity_check_spec (temps : List (String × ℤ)) (humid : ℤ × ℤ) :
    (sanity_check temps humid = true ↔ temps.length = 2) ∧
    humidity_reading_len humid = 2 ∧
    (2 < temps.length → sanity_check temps humid = false) := by
  refine ⟨?_, rfl, fun hgt => ?_⟩
  · by_cases h : temps.length = 2 <;>
      simp [sanity_check, humidity_reading_len, h]
  · have h : ¬ temps.length = 2 := by omega
    simp [sanity_check, humidity_reading_len, h]

/-- C9 witness: three responding probes fail the check, two pass it, and
the humidity branch cannot fail. -/
theorem sanity_check_spec_witness :
    sanity_check [("probe_1", 680), ("probe_2", 690), ("probe_3", 700)]
      (700, 600) = false ∧
    sanity_check [("probe_1", 680), ("probe_2", 690)] (700, 600) = true ∧
    humidity_reading_len (700, 600) = 2 :=
  ⟨(sanity_check_spec
      [("probe_1", 680), ("probe_2", 690), ("probe_3", 700)]
      (700, 600)).2.2 (by decide),
    (sanity_check_spec [("probe_1", 680), ("probe_2", 690)]
      (700, 600)).1.mpr rfl,
    (sanity_check_spec [("probe_1", 680), ("probe_2", 690)]
      (700, 600)).2.1⟩

/-- C10: on every accumulating `write_heating_time` call (persisted
total nonzero), the amount added to the persisted total is the
duration's whole seconds modulo 86400 (`timedelta.seconds`), so a
session of a day or more contributes only its remainder beyond whole
days. -/
theorem write_heating_time_mod_day (d now : ℕ) (db : DbState)
    (h : db.heating_timer ≠ 0) :
    (write_heating_time d now db).1.heating_timer =
      db.heating_timer + d / 1000000 % 86400 := by
  simp [write_heating_time, h, tdSeconds, Nat.add_comm]

/-- C10 witness: a 25-hour session (90000 s) adds only 3600 s to the
persisted total 5. -/
theorem write_heating_time_mod_day_witness :
    (⟨5, 0⟩ : DbState).heating_timer ≠ 0 ∧
    (write_heating_time 90000000000 0 ⟨5, 0⟩).1.heating_timer =
      5 + 90000000000 / 1000000 % 86400 ∧
    (90000000000 : ℕ) / 1000000 % 86400 = 3600 :=
  ⟨by decide, write_heating_time_mod_day 90000000000 0 ⟨5, 0⟩ (by decide),
    by decide⟩
